import Mathlib

/-!
# web-messenger: chat identifiers, persistence and session events of `app.js`

A shallow embedding of the parts of `src/app.js` that keep the local chat and
message stores in step with the transport session.

* A JavaScript string is the list of its UTF-16 code units; the default order of
  `Array.prototype.sort` and `substring`, `trim`, `+` all act on code units.
* An IndexedDB object store with `keyPath: 'id'` is a list of records; `put`
  replaces the record carrying the same key or adds a new one, `get` looks a key up.
* `Date.now()` and `Math.random().toString(36).substr(2, 9)` are inputs of each
  handler (`Env`).
* Storage requests are taken to succeed, the only case in which a call resolves.
* DOM rendering is left out; `alert` calls and `conn.send` calls are logged in the state.
-/

namespace Messenger

/-! ## Strings -/

/-- A JavaScript string: its UTF-16 code units. -/
abbrev JSString := List Nat

/-- UTF-16 code units of one Unicode scalar value. -/
def utf16 (c : Char) : List Nat :=
  if c.toNat < 65536 then [c.toNat]
  else [55296 + (c.toNat - 65536) / 1024, 56320 + (c.toNat - 65536) % 1024]

/-- A string literal of the source as a JavaScript string. -/
def lit (s : String) : JSString :=
  s.toList.flatMap utf16

/-- ECMAScript `IsLessThan` on two strings: a proper prefix is smaller, otherwise the
first differing code unit decides. -/
def jsLt : JSString → JSString → Bool
  | [], [] => false
  | [], _ :: _ => true
  | _ :: _, [] => false
  | a :: as, b :: bs => if a < b then true else if b < a then false else jsLt as bs

/-- ECMAScript `SortCompare` without a comparator, on strings. -/
def sortCompare (x y : JSString) : Int :=
  if jsLt x y then -1 else if jsLt y x then 1 else 0

/-- Insert `x` into a sorted list after every element that does not compare greater
than it (the insertion keeps the sort stable). -/
def sortInsert (x : JSString) : List JSString → List JSString
  | [] => [x]
  | y :: ys => if sortCompare x y < 0 then x :: y :: ys else y :: sortInsert x ys

/-- JavaScript `Array.prototype.sort()` without a comparator: a stable sort by `SortCompare`. -/
def jsSort (xs : List JSString) : List JSString :=
  xs.foldl (fun acc x => sortInsert x acc) []

/-- JavaScript `Array.prototype.join(sep)` on an array of strings. -/
def jsJoin (sep : JSString) : List JSString → JSString
  | [] => []
  | [x] => x
  | x :: y :: rest => x ++ sep ++ jsJoin sep (y :: rest)

/-- JavaScript `s.substring(0, n)`. -/
def substring0 (s : JSString) (n : Nat) : JSString :=
  s.take n

/-- The code units ECMAScript counts as white space or line terminator. -/
def isWhiteSpace (c : Nat) : Bool :=
  c == 9 || c == 10 || c == 11 || c == 12 || c == 13 || c == 32 || c == 160 ||
  c == 5760 || (8192 ≤ c && c ≤ 8202) || c == 8232 || c == 8233 || c == 8239 ||
  c == 8287 || c == 12288 || c == 65279

/-- JavaScript `s.trim()`. -/
def trim (s : JSString) : JSString :=
  ((s.dropWhile isWhiteSpace).reverse.dropWhile isWhiteSpace).reverse

/-- Decimal digits of `n`, most significant first, at most `fuel` of them. -/
def decimalDigits : Nat → Nat → List Nat
  | 0, _ => []
  | fuel + 1, n => if n < 10 then [48 + n] else decimalDigits fuel (n / 10) ++ [48 + n % 10]

/-- String conversion of a non-negative integer, as `'' + n` gives it. -/
def numberToString (n : Nat) : JSString :=
  decimalDigits (n + 1) n

/-! ## Identifiers -/

/-- Source `generateUserId()`: `'user_' + Math.random().toString(36).substr(2, 9)`; `rnd` is the
random suffix. -/
def generateUserId (rnd : JSString) : JSString :=
  lit "user_" ++ rnd

/-- Source `generateChatId(user1, user2)`: `[user1, user2].sort().join('_')`. -/
def generateChatId (user1 user2 : JSString) : JSString :=
  jsJoin (lit "_") (jsSort [user1, user2])

/-- Source `generateMessageId()`: `'msg_' + Date.now() + '_' + Math.random().toString(36).substr(2, 9)`. -/
def generateMessageId (now : Nat) (rnd : JSString) : JSString :=
  lit "msg_" ++ numberToString now ++ lit "_" ++ rnd

/-- The spec's wording of the chat id: the identifier that comes first in the string
order, then `_`, then the other one. -/
def alphabeticalJoin (a b : JSString) : JSString :=
  if jsLt b a then b ++ lit "_" ++ a else a ++ lit "_" ++ b

/-! ## Records and stores -/

/-- A record of the `chats` store. `peerId` is `null` for a chat made by
`createNewChat`; `lastMessage` is absent until the first message. -/
structure Chat where
  id : JSString
  peerId : Option JSString
  title : JSString
  avatar : JSString
  lastActivity : Nat
  lastMessage : Option JSString
  unread : Nat
deriving DecidableEq, Repr

/-- A record of the `messages` store. `chatId` is the value of `currentChatId`
at creation, which is `null` before any chat was opened. -/
structure Message where
  id : JSString
  chatId : Option JSString
  content : JSString
  sender : JSString
  timestamp : Nat
  isSystem : Bool
deriving DecidableEq, Repr

/-- The record of the `user` store. -/
structure UserRecord where
  id : JSString
  username : JSString
  userId : JSString
deriving DecidableEq, Repr

/-- A payload on the wire. -/
structure Payload where
  type : JSString
  content : JSString
  sender : JSString
  timestamp : Nat
deriving DecidableEq, Repr

/-- Source `saveToDB(storeName, data)`: `store.put(data)` on a store keyed by `key`. -/
def saveToDB {α : Type} (key : α → JSString) (store : List α) (data : α) : List α :=
  if store.any (fun r => key r == key data) then
    store.map (fun r => if key r == key data then data else r)
  else store ++ [data]

/-- Source `getFromDB(storeName, key)`: `store.get(key)`; `none` is `undefined`. -/
def getFromDB {α : Type} (key : α → JSString) (store : List α) (k : JSString) : Option α :=
  store.find? (fun r => key r == k)

/-! ## Session state -/

/-- Life cycle of a data connection; `conn.open` is true in `opened` only. -/
inductive ConnStatus where
  | connecting
  | opened
  | closed
deriving DecidableEq, Repr

/-- A data connection object of the transport library. -/
structure Conn where
  /-- The remote identifier, `conn.peer`. -/
  peer : JSString
  /-- Whether it came through `peer.on('connection')`. -/
  inbound : Bool
  status : ConnStatus
  /-- Whether a `'data'` listener calling `handleIncomingMessage` is attached. -/
  dataListener : Bool
  /-- Whether the `'open'` handler of `handleIncomingConnection` is suspended at its
  first `await`. -/
  openSuspended : Bool
deriving DecidableEq, Repr

/-- The global variables of `app.js`, the three stores, and the log of `alert` and
`send` calls. A connection is named by its position in `conns`. -/
structure State where
  /-- The identifier the transport runs under, `peer.id`. -/
  peerId : JSString
  userId : JSString
  username : JSString
  currentChatId : Option JSString
  currentConnection : Option Nat
  conns : List Conn
  chats : List Chat
  messages : List Message
  user : List UserRecord
  /-- The `alert` calls. -/
  alerts : List JSString
  /-- The `send` calls: the value of `currentConnection` and the payload. -/
  sent : List (Option Nat × Payload)
deriving DecidableEq, Repr

/-- The values a handler reads from the clock and the random generator. -/
structure Env where
  /-- `Date.now()` inside `generateMessageId()` or `'new_' + Date.now()`. -/
  tId : Nat
  /-- `Date.now()` of a message's `timestamp`. -/
  tStamp : Nat
  /-- `Date.now()` of a chat's `lastActivity`. -/
  tAct : Nat
  /-- `Math.random().toString(36).substr(2, 9)`. -/
  rnd : JSString
deriving DecidableEq, Repr

/-- Apply `f` to the element at position `n`. -/
def updateAt {α : Type} (f : α → α) : Nat → List α → List α
  | _, [] => []
  | 0, x :: xs => f x :: xs
  | n + 1, x :: xs => x :: updateAt f n xs

/-- The test `currentConnection && currentConnection.open`. -/
def connectionOpen (s : State) : Bool :=
  match s.currentConnection with
  | none => false
  | some h =>
    match s.conns[h]? with
    | none => false
    | some c => c.status == ConnStatus.opened

/-- The connections whose `open` flag is set. -/
def openConnections (s : State) : List Conn :=
  s.conns.filter (fun c => c.status == ConnStatus.opened)

/-! ## Handlers

Each function is one uninterrupted run of the source function: every awaited storage
request resolves before another event is handled. A call of an `async` function that
is not awaited (`openChat` inside other handlers) runs up to its first `await` at the
call and the rest once the caller has returned. -/

/-- Source `sendSystemMessage(content)`. -/
def sendSystemMessage (s : State) (env : Env) (content : JSString) : State :=
  let message : Message :=
    { id := generateMessageId env.tId env.rnd
      chatId := s.currentChatId
      content := content
      sender := lit "Система"
      timestamp := env.tStamp
      isSystem := true }
  { s with messages := saveToDB Message.id s.messages message }

/-- The chat summary update shared by `handleIncomingMessage` (lines 195-201) and
`sendMessage` (lines 236-242): `getFromDB('chats', currentChatId)`, then
`lastActivity`, `lastMessage` and `saveToDB` when the chat exists. With
`currentChatId` null the `get` request throws and the call ends there. -/
def refreshChat (s : State) (env : Env) (content : JSString) : State :=
  match s.currentChatId with
  | none => s
  | some cid =>
    match getFromDB Chat.id s.chats cid with
    | none => s
    | some chat =>
      let chat1 : Chat :=
        { chat with lastActivity := env.tAct, lastMessage := some (substring0 content 30) }
      { s with chats := saveToDB Chat.id s.chats chat1 }

/-- Source `handleIncomingMessage(data)`. A `typing` payload changes the status text only. -/
def handleIncomingMessage (s : State) (env : Env) (data : Payload) : State :=
  if data.type = lit "message" then
    let message : Message :=
      { id := generateMessageId env.tId env.rnd
        chatId := s.currentChatId
        content := data.content
        sender := data.sender
        timestamp := env.tStamp
        isSystem := false }
    refreshChat { s with messages := saveToDB Message.id s.messages message } env data.content
  else s

/-- Source `sendMessage(content)`. -/
def sendMessage (s : State) (env : Env) (content : JSString) : State :=
  if !connectionOpen s then
    { s with alerts := s.alerts ++ [lit "Нет активного соединения!"] }
  else
    let message : Message :=
      { id := generateMessageId env.tId env.rnd
        chatId := s.currentChatId
        content := content
        sender := s.username
        timestamp := env.tStamp
        isSystem := false }
    let s1 := { s with messages := saveToDB Message.id s.messages message }
    let payload : Payload :=
      { type := lit "message", content := content, sender := s.username,
        timestamp := message.timestamp }
    let s2 := { s1 with sent := s1.sent ++ [(s1.currentConnection, payload)] }
    refreshChat s2 env content

/-- Source `sendMessageHandler()`; `input` is the value of the message field. -/
def sendMessageHandler (s : State) (env : Env) (input : JSString) : State :=
  let message := trim input
  if message ≠ [] ∧ connectionOpen s then sendMessage s env message else s

/-- Source `connectToPeer(peerId)` up to the registration of the handlers: the current
connection is closed when it is open, and `peer.connect` makes a new connection. -/
def connectToPeer (s : State) (peerId : JSString) : State :=
  let s1 :=
    match s.currentConnection with
    | some h =>
      if connectionOpen s then
        { s with conns := updateAt (fun c => { c with status := ConnStatus.closed }) h s.conns }
      else s
    | none => s
  { s1 with conns := s1.conns ++
      [{ peer := peerId, inbound := false, status := ConnStatus.connecting,
         dataListener := false, openSuspended := false }] }

/-- The `'open'` handler registered by `connectToPeer` (lines 357-366) for connection
`h` to `peerId`; `setupConnectionListeners` attaches the `'data'` listener. -/
def connectToPeerOnOpen (s : State) (env : Env) (h : Nat) (peerId : JSString) : State :=
  let s1 := { s with currentConnection := some h }
  let s2 := sendSystemMessage s1 env (lit "Вы подключились к " ++ peerId)
  { s2 with conns := updateAt (fun c => { c with dataListener := true }) h s2.conns }

/-- Source `openChat(chatId)` up to its first `await`. -/
def openChatBegin (s : State) (chatId : JSString) : State :=
  { s with currentChatId := some chatId }

/-- Source `openChat(chatId)` from its first `await` on: nothing more when the chat is
missing, else the messages are shown and `connectToPeer(chat.peerId)` is called when
`chat.peerId && chat.peerId !== userId`. -/
def openChatResume (s : State) (chatId : JSString) : State :=
  match getFromDB Chat.id s.chats chatId with
  | none => s
  | some chat =>
    match chat.peerId with
    | none => s
    | some p => if p ≠ [] ∧ p ≠ s.userId then connectToPeer s p else s

/-- Source `openChat(chatId)`. -/
def openChat (s : State) (chatId : JSString) : State :=
  openChatResume (openChatBegin s chatId) chatId

/-- The chat record `handleIncomingConnection` and `connectToFriend` create for a
remote identifier. `toUpperCase` is `String.prototype.toUpperCase`. -/
def newPeerChat (toUpperCase : JSString → JSString) (chatId other : JSString) (env : Env) :
    Chat :=
  { id := chatId
    peerId := some other
    title := lit "Чат с " ++ substring0 other 8
    avatar := toUpperCase (other.take 1)
    lastActivity := env.tAct
    lastMessage := none
    unread := 0 }

/-- Source `handleIncomingConnection(conn)`: the `'connection'` event brings a new
connection object from `remote`, and the listeners are attached to it. -/
def handleIncomingConnection (s : State) (remote : JSString) : State :=
  { s with conns := s.conns ++
      [{ peer := remote, inbound := true, status := ConnStatus.connecting,
         dataListener := true, openSuspended := false }] }

/-- The `'open'` handler of `handleIncomingConnection` up to its first `await`
(lines 135-139): the connection becomes the current one. -/
def incomingOpenBegin (s : State) (h : Nat) : State :=
  { s with currentConnection := some h }

/-- The `'open'` handler of `handleIncomingConnection` from its first `await` on
(lines 139-159), for connection `h` from `remote`, followed by the rest of the
`openChat` call it started. -/
def incomingOpenResume (toUpperCase : JSString → JSString) (s : State) (env : Env)
    (remote : JSString) : State :=
  let chatId := generateChatId s.peerId remote
  let s1 :=
    match getFromDB Chat.id s.chats chatId with
    | some _ => s
    | none => { s with chats := saveToDB Chat.id s.chats (newPeerChat toUpperCase chatId remote env) }
  let s2 := openChatBegin s1 chatId
  let s3 := sendSystemMessage s2 env (lit "Вы подключились к " ++ remote)
  openChatResume s3 chatId

/-- The whole `'open'` handler of `handleIncomingConnection`. -/
def incomingOpen (toUpperCase : JSString → JSString) (s : State) (env : Env) (h : Nat)
    (remote : JSString) : State :=
  incomingOpenResume toUpperCase (incomingOpenBegin s h) env remote

/-- Source `connectToFriend()`; `input` is the value of the friend id field. -/
def connectToFriend (toUpperCase : JSString → JSString) (s : State) (env : Env)
    (input : JSString) : State :=
  let friendId := trim input
  if friendId = [] then
    { s with alerts := s.alerts ++ [lit "Введите ID друга"] }
  else if friendId = s.userId then
    { s with alerts := s.alerts ++ [lit "Нельзя подключиться к самому себе!"] }
  else
    let chatId := generateChatId s.userId friendId
    let s1 :=
      match getFromDB Chat.id s.chats chatId with
      | some _ => s
      | none =>
        { s with chats := saveToDB Chat.id s.chats (newPeerChat toUpperCase chatId friendId env) }
    let s2 := openChatBegin s1 chatId
    let s3 := connectToPeer s2 friendId
    openChatResume s3 chatId

/-- Source `createNewChat()`. -/
def createNewChat (s : State) (env : Env) : State :=
  let newChatId := generateChatId s.userId (lit "new_" ++ numberToString env.tId)
  let chat : Chat :=
    { id := newChatId
      peerId := none
      title := lit "Новый чат"
      avatar := lit "Н"
      lastActivity := env.tAct
      lastMessage := none
      unread := 0 }
  openChat { s with chats := saveToDB Chat.id s.chats chat } newChatId

/-- Source `saveUsername()`; `input` is the value of the name field. -/
def saveUsername (s : State) (input : JSString) : State :=
  let name := trim input
  if name ≠ [] then
    let record : UserRecord := { id := lit "currentUser", username := name, userId := s.userId }
    { s with username := name, user := saveToDB UserRecord.id s.user record }
  else s

/-- Source `loadUserData()`; `rnd` is the random suffix `generateUserId()` would draw. -/
def loadUserData (s : State) (rnd : JSString) : State :=
  match getFromDB UserRecord.id s.user (lit "currentUser") with
  | some userData =>
    { s with username := userData.username
             userId := if userData.userId ≠ [] then userData.userId else generateUserId rnd }
  | none => { s with userId := generateUserId rnd }

/-- The `DOMContentLoaded` handler on the stores of `s`: the variables start from
their initial values, `loadUserData` runs and `initPeerJS` takes `userId` as the
transport identifier. No connection object of an earlier page is left. -/
def launch (s : State) (rnd : JSString) : State :=
  let s1 := loadUserData
    { s with username := lit "Гость", currentChatId := none, currentConnection := none,
             conns := [] } rnd
  { s1 with peerId := s1.userId }

/-! ## Events -/

/-- What the browser and the transport library can deliver to the page. -/
inductive Event where
  /-- The page is loaded again; `rnd` is the random suffix a new identifier would get. -/
  | reload (rnd : JSString)
  /-- The `'open'` event of `peer`: `userId = id`. -/
  | peerOpen
  /-- The `'connection'` event of `peer`, from `remote`. -/
  | connection (remote : JSString)
  /-- The `'open'` event of inbound connection `h`, its handler run as a whole. -/
  | incomingOpen (h : Nat) (env : Env)
  /-- The `'open'` event of inbound connection `h`, its handler run to its first `await`. -/
  | incomingOpenBegin (h : Nat)
  /-- The suspended `'open'` handler of inbound connection `h` goes on. -/
  | incomingOpenResume (h : Nat) (env : Env)
  /-- The `'open'` event of outbound connection `h`. -/
  | outgoingOpen (h : Nat) (env : Env)
  /-- A `'data'` event of connection `h`. -/
  | data (h : Nat) (payload : Payload) (env : Env)
  /-- Connection `h` is closed by the remote side. -/
  | close (h : Nat)
  /-- A click on the entry of chat `chatId` in the chat list. -/
  | clickChat (chatId : JSString)
  /-- A click on the connect button with `input` in the friend id field. -/
  | clickConnectToFriend (input : JSString) (env : Env)
  /-- A click on the new chat button. -/
  | clickCreateNewChat (env : Env)
  /-- A click on the send button, or Enter, with `input` in the message field. -/
  | clickSend (input : JSString) (env : Env)
  /-- A click on the save button with `input` in the name field. -/
  | clickSaveUsername (input : JSString)
deriving DecidableEq, Repr

/-- Whether the event runs its handler as a whole. -/
def Event.whole : Event → Bool
  | .incomingOpenBegin _ => false
  | .incomingOpenResume _ _ => false
  | _ => true

/-- Mark connection `h` as open. -/
def markOpen (s : State) (h : Nat) : State :=
  { s with conns := updateAt (fun c => { c with status := ConnStatus.opened }) h s.conns }

/-- One event. An event that cannot occur in the state (a connection that is not
there or not in the right stage, a chat that is not listed) leaves it as it is. -/
def step (toUpperCase : JSString → JSString) (s : State) : Event → State
  | .reload rnd => launch s rnd
  | .peerOpen => { s with userId := s.peerId }
  | .connection remote => handleIncomingConnection s remote
  | .incomingOpen h env =>
    match s.conns[h]? with
    | some c =>
      if c.inbound ∧ c.status = ConnStatus.connecting then
        incomingOpen toUpperCase (markOpen s h) env h c.peer
      else s
    | none => s
  | .incomingOpenBegin h =>
    match s.conns[h]? with
    | some c =>
      if c.inbound ∧ c.status = ConnStatus.connecting then
        let s1 := markOpen s h
        incomingOpenBegin
          { s1 with conns := updateAt (fun c => { c with openSuspended := true }) h s1.conns } h
      else s
    | none => s
  | .incomingOpenResume h env =>
    match s.conns[h]? with
    | some c =>
      if c.openSuspended then
        incomingOpenResume toUpperCase
          { s with conns := updateAt (fun c => { c with openSuspended := false }) h s.conns }
          env c.peer
      else s
    | none => s
  | .outgoingOpen h env =>
    match s.conns[h]? with
    | some c =>
      if ¬ c.inbound ∧ c.status = ConnStatus.connecting then
        connectToPeerOnOpen (markOpen s h) env h c.peer
      else s
    | none => s
  | .data h payload env =>
    match s.conns[h]? with
    | some c =>
      if c.dataListener ∧ c.status = ConnStatus.opened then handleIncomingMessage s env payload
      else s
    | none => s
  | .close h => { s with conns := updateAt (fun c => { c with status := ConnStatus.closed }) h s.conns }
  | .clickChat chatId =>
    match getFromDB Chat.id s.chats chatId with
    | some _ => openChat s chatId
    | none => s
  | .clickConnectToFriend input env => connectToFriend toUpperCase s env input
  | .clickCreateNewChat env => createNewChat s env
  | .clickSend input env => sendMessageHandler s env input
  | .clickSaveUsername input => saveUsername s input

/-- The events of a list, one after the other. -/
def run (toUpperCase : JSString → JSString) (s : State) (events : List Event) : State :=
  events.foldl (step toUpperCase) s

/-- The session after a first launch on empty storage: `loadUserData` finds no user and
generates an identifier from the random suffix `rnd`. -/
def init (rnd : JSString) : State :=
  { peerId := generateUserId rnd
    userId := generateUserId rnd
    username := lit "Гость"
    currentChatId := none
    currentConnection := none
    conns := []
    chats := []
    messages := []
    user := []
    alerts := []
    sent := [] }

/-- Every record of `messages` carries the id of a record of `chats`. -/
def messagesHaveChats (s : State) : Bool :=
  s.messages.all (fun m => s.chats.any (fun c => m.chatId == some c.id))

/-- Upper case of ASCII letters, the value of `toUpperCase` on ASCII strings. -/
def asciiUpper (s : JSString) : JSString :=
  s.map (fun c => if 97 ≤ c ∧ c ≤ 122 then c - 32 else c)

/-! ## Invariant and sample sessions -/

/-- Every message carries the id of a stored chat. -/
def hasChats (s : State) : Prop :=
  ∀ m ∈ s.messages, ∃ c ∈ s.chats, m.chatId = some c.id

/-- The active chat id is set and is the id of a stored chat. -/
def activeChat (s : State) : Prop :=
  ∃ c ∈ s.chats, s.currentChatId = some c.id

/-- No chat was opened yet, and the only connections are inbound ones that have not
opened. -/
def idle (s : State) : Prop :=
  s.currentChatId = none ∧
    ∀ c ∈ s.conns, c.inbound = true ∧ c.status ≠ ConnStatus.opened

/-- The invariant of the session when handlers run as a whole. -/
def Inv (s : State) : Prop :=
  hasChats s ∧ (activeChat s ∨ idle s)

/-- A session with one open connection to `user_b2` and the chat with it opened. -/
def sampleSession : State :=
  run asciiUpper (init (lit "a1"))
    [Event.clickConnectToFriend (lit "user_b2") ⟨1, 2, 3, lit "r"⟩,
     Event.outgoingOpen 0 ⟨4, 5, 6, lit "q"⟩]

/-- The record `handleIncomingMessage` makes of a payload. -/
def incomingRecord (s : State) (env : Env) (data : Payload) : Message :=
  { id := generateMessageId env.tId env.rnd
    chatId := s.currentChatId
    content := data.content
    sender := data.sender
    timestamp := env.tStamp
    isSystem := false }

/-- A store in which a record already carries the id the next message will get. -/
def collidingSession : State :=
  { init (lit "a1") with
    currentChatId := some (lit "c")
    messages := [{ id := generateMessageId 5 (lit "abc"), chatId := some (lit "c"),
                   content := lit "old", sender := lit "bob", timestamp := 5,
                   isSystem := false }] }

/-- The events after which an inbound connection from `user_c3` has become the
current one in `sampleSession`. -/
def inboundTakesOver : List Event :=
  [Event.connection (lit "user_c3"), Event.incomingOpenBegin 2]

/-- The events of one `connectToFriend` whose two connections both open. -/
def connectedTwice : List Event :=
  [Event.clickConnectToFriend (lit "user_b2") ⟨1, 2, 3, lit "r"⟩,
   Event.outgoingOpen 0 ⟨4, 5, 6, lit "q"⟩,
   Event.outgoingOpen 1 ⟨7, 8, 9, lit "p"⟩]

/-- The events in which a payload arrives while the `'open'` handler of the inbound
connection is suspended at its first `await`. -/
def payloadDuringOpen : List Event :=
  [Event.connection (lit "user_b2"), Event.incomingOpenBegin 0,
   Event.data 0 ⟨lit "message", lit "hi", lit "bob", 0⟩ ⟨1, 2, 3, lit "r"⟩]

/-- The events of a short conversation: connect, receive, send, accept. -/
def conversation : List Event :=
  [Event.clickConnectToFriend (lit "user_b2") ⟨1, 2, 3, lit "r"⟩,
   Event.outgoingOpen 0 ⟨4, 5, 6, lit "q"⟩,
   Event.data 0 ⟨lit "message", lit "hi", lit "bob", 0⟩ ⟨7, 8, 9, lit "p"⟩,
   Event.clickSend (lit "hello") ⟨10, 11, 12, lit "o"⟩,
   Event.connection (lit "user_c3"),
   Event.incomingOpen 2 ⟨13, 14, 15, lit "n"⟩]

/-! ## Sample values -/

theorem lit_alice : lit "alice" = [97, 108, 105, 99, 101] := by decide

theorem numberToString_sample : numberToString 1203 = lit "1203" := by decide

theorem trim_sample : trim (lit "  a b \n") = lit "a b" := by decide

theorem init_eq_launch :
    init (lit "k3") = launch { init (lit "zz") with peerId := [], userId := [] } (lit "k3") := by
  decide

/-! ## The string order and the chat identifier -/

theorem jsLt_irrefl (a : JSString) : jsLt a a = false := by
  induction a with
  | nil => rfl
  | cons x xs ih => simp [jsLt, ih]

theorem jsLt_asymm : ∀ a b : JSString, jsLt a b = true → jsLt b a = false
  | [], [], h => by simp [jsLt] at h
  | [], _ :: _, _ => by simp [jsLt]
  | _ :: _, [], h => by simp [jsLt] at h
  | x :: xs, y :: ys, h => by
    simp only [jsLt] at h ⊢
    by_cases hxy : x < y
    · have : ¬ y < x := by omega
      simp [this, hxy]
    · by_cases hyx : y < x
      · simp [hxy, hyx] at h
      · simp only [hxy, hyx, if_false] at h ⊢
        exact jsLt_asymm xs ys h

theorem jsLt_total : ∀ a b : JSString, jsLt a b = false → jsLt b a = false → a = b
  | [], [], _, _ => rfl
  | [], _ :: _, h, _ => by simp [jsLt] at h
  | _ :: _, [], _, h => by simp [jsLt] at h
  | x :: xs, y :: ys, h1, h2 => by
    simp only [jsLt] at h1 h2
    by_cases hxy : x < y
    · simp [hxy] at h1
    · by_cases hyx : y < x
      · simp [hyx] at h2
      · simp only [hxy, hyx, if_false] at h1 h2
        have hx : x = y := by omega
        rw [hx, jsLt_total xs ys h1 h2]

theorem generateChatId_eq (a b : JSString) :
    generateChatId a b = alphabeticalJoin a b := by
  unfold generateChatId alphabeticalJoin jsSort
  simp only [List.foldl, sortInsert, sortCompare]
  by_cases h : jsLt b a = true
  · simp [h, jsJoin]
  · by_cases h2 : jsLt a b = true <;> simp [h, h2, jsJoin]

theorem generateChatId_comm (a b : JSString) :
    generateChatId a b = generateChatId b a := by
  rw [generateChatId_eq, generateChatId_eq]
  unfold alphabeticalJoin
  by_cases h1 : jsLt b a = true
  · have h2 := jsLt_asymm b a h1
    simp [h1, h2]
  · by_cases h2 : jsLt a b = true
    · simp [h1, h2]
    · have hab : a = b := jsLt_total a b (by simpa using h2) (by simpa using h1)
      simp [hab]

theorem lit_underscore : lit "_" = [95] := by decide

theorem lit_user : lit "user_" = [117, 115, 101, 114, 95] := by decide

/-- A string is cut in one way only at its first `_`. -/
theorem split_at_underscore : ∀ (x x1 y y1 : JSString), 95 ∉ x → 95 ∉ x1 →
    x ++ 95 :: y = x1 ++ 95 :: y1 → x = x1 ∧ y = y1
  | [], [], y, y1, _, _, h => by simpa using h
  | [], u :: x1, y, y1, _, h1, h => by
    simp only [List.nil_append, List.cons_append, List.cons.injEq] at h
    exact absurd (h.1 ▸ List.mem_cons_self u x1) h1
  | u :: x, [], y, y1, h0, _, h => by
    simp only [List.nil_append, List.cons_append, List.cons.injEq] at h
    exact absurd (h.1 ▸ List.mem_cons_self u x) h0
  | u :: x, v :: x1, y, y1, h0, h1, h => by
    simp only [List.cons_append, List.cons.injEq] at h
    have ih := split_at_underscore x x1 y y1
      (fun hm => h0 (List.mem_cons_of_mem _ hm)) (fun hm => h1 (List.mem_cons_of_mem _ hm)) h.2
    simp [h.1, ih.1, ih.2]

/-- Two joins of generated identifiers are equal only when their parts are. -/
theorem join_generated_inj (x y x1 y1 : JSString) (hx : 95 ∉ x) (hx1 : 95 ∉ x1)
    (h : generateUserId x ++ lit "_" ++ generateUserId y
        = generateUserId x1 ++ lit "_" ++ generateUserId y1) :
    generateUserId x = generateUserId x1 ∧ generateUserId y = generateUserId y1 := by
  simp only [generateUserId, lit_underscore, lit_user, List.append_assoc, List.cons_append,
    List.nil_append, List.cons.injEq, true_and] at h
  have hs := split_at_underscore x x1 _ _ hx hx1 h
  simp only [generateUserId, hs.1, true_and]
  simpa using hs.2

/-! ## The stores -/

section Store
variable {α : Type} (key : α → JSString)

theorem getFromDB_key {store : List α} {k : JSString} {r : α}
    (h : getFromDB key store k = some r) : key r = k := by
  have := List.find?_some h
  simpa using this

theorem getFromDB_mem {store : List α} {k : JSString} {r : α}
    (h : getFromDB key store k = some r) : r ∈ store :=
  List.mem_of_find?_eq_some h

theorem getFromDB_none {store : List α} {k : JSString}
    (h : getFromDB key store k = none) : ∀ r ∈ store, key r ≠ k := by
  intro r hr
  have := List.find?_eq_none.mp h r hr
  simpa using this

theorem saveToDB_fresh (store : List α) (x : α) (h : ∀ r ∈ store, key r ≠ key x) :
    saveToDB key store x = store ++ [x] := by
  unfold saveToDB
  have : store.any (fun r => key r == key x) = false := by
    rw [List.any_eq_false]
    intro r hr
    simpa using h r hr
  simp [this]

theorem mem_saveToDB_self (store : List α) (x : α) : x ∈ saveToDB key store x := by
  unfold saveToDB
  split
  · rename_i h
    rw [List.any_eq_true] at h
    obtain ⟨r, hr, hk⟩ := h
    exact List.mem_map.mpr ⟨r, hr, by simp [hk]⟩
  · simp

theorem saveToDB_keeps_key (store : List α) (x r : α) (hr : r ∈ store) :
    ∃ r1 ∈ saveToDB key store x, key r1 = key r := by
  unfold saveToDB
  split
  · by_cases hk : key r = key x
    · exact ⟨x, List.mem_map.mpr ⟨r, hr, by simp [hk]⟩, hk.symm⟩
    · exact ⟨r, List.mem_map.mpr ⟨r, hr, by simp [hk]⟩, rfl⟩
  · exact ⟨r, List.mem_append_left _ hr, rfl⟩

theorem find_map_replace (x : α) : ∀ store : List α,
    (∃ r ∈ store, key r = key x) →
    (store.map (fun r => if key r == key x then x else r)).find? (fun r => key r == key x)
      = some x
  | [], h => by simp at h
  | r :: rest, h => by
    by_cases hk : key r = key x
    · simp [hk]
    · have hrest : ∃ r1 ∈ rest, key r1 = key x := by
        obtain ⟨r1, hr1, hk1⟩ := h
        rcases List.mem_cons.mp hr1 with rfl | hm
        · exact absurd hk1 hk
        · exact ⟨r1, hm, hk1⟩
      have hb : (key r == key x) = false := by simpa using hk
      have ih := find_map_replace x rest hrest
      rw [List.map_cons, List.find?_cons]
      simp only [hb, Bool.false_eq_true, if_false]
      exact ih

theorem getFromDB_saveToDB_self (store : List α) (x : α) :
    getFromDB key (saveToDB key store x) (key x) = some x := by
  unfold saveToDB getFromDB
  split
  · rename_i h
    rw [List.any_eq_true] at h
    obtain ⟨r, hr, hk⟩ := h
    exact find_map_replace key x store ⟨r, hr, by simpa using hk⟩
  · rename_i h
    have hnone : store.find? (fun r => key r == key x) = none := by
      rw [List.find?_eq_none]
      intro r hr hk
      exact h (List.any_eq_true.mpr ⟨r, hr, hk⟩)
    simp [List.find?_append, hnone]

end Store

/-! ## What the handlers leave alone -/

theorem refreshChat_messages (s : State) (env : Env) (content : JSString) :
    (refreshChat s env content).messages = s.messages := by
  unfold refreshChat
  split
  · rfl
  · split <;> rfl

theorem refreshChat_sent (s : State) (env : Env) (content : JSString) :
    (refreshChat s env content).sent = s.sent := by
  unfold refreshChat
  split
  · rfl
  · split <;> rfl

theorem connectToPeer_chats (s : State) (p : JSString) :
    (connectToPeer s p).chats = s.chats := by
  unfold connectToPeer
  split
  · split <;> rfl
  · rfl

theorem openChatResume_chats (s : State) (chatId : JSString) :
    (openChatResume s chatId).chats = s.chats := by
  unfold openChatResume
  split
  · rfl
  · split
    · rfl
    · split
      · exact connectToPeer_chats _ _
      · rfl

theorem openChat_chats (s : State) (chatId : JSString) :
    (openChat s chatId).chats = s.chats := by
  unfold openChat
  rw [openChatResume_chats]
  rfl

theorem connectToPeer_currentChatId (s : State) (p : JSString) :
    (connectToPeer s p).currentChatId = s.currentChatId := by
  unfold connectToPeer
  split
  · split <;> rfl
  · rfl

theorem openChatResume_currentChatId (s : State) (chatId : JSString) :
    (openChatResume s chatId).currentChatId = s.currentChatId := by
  unfold openChatResume
  split
  · rfl
  · split
    · rfl
    · split
      · exact connectToPeer_currentChatId _ _
      · rfl

theorem connectionOpen_false_of (s : State)
    (hc : s.currentConnection = none ∨
      ∃ h c, s.currentConnection = some h ∧ s.conns[h]? = some c ∧
        c.status ≠ ConnStatus.opened) :
    connectionOpen s = false := by
  unfold connectionOpen
  rcases hc with h | ⟨h, c, h1, h2, h3⟩
  · simp [h]
  · simp [h1, h2, h3]

/-! ## Messages and their chats -/

theorem mem_saveToDB {α : Type} (key : α → JSString) {store : List α} {x r : α}
    (h : r ∈ saveToDB key store x) : r = x ∨ r ∈ store := by
  unfold saveToDB at h
  split at h
  · obtain ⟨r0, hr0, heq⟩ := List.mem_map.mp h
    by_cases hk : key r0 = key x
    · left
      simpa [hk] using heq.symm
    · right
      have : r0 = r := by simpa [hk] using heq
      exact this ▸ hr0
  · rcases List.mem_append.mp h with h1 | h1
    · exact Or.inr h1
    · exact Or.inl (by simpa using h1)

theorem mem_updateAt {α : Type} (f : α → α) : ∀ (n : Nat) (l : List α) (c : α),
    c ∈ updateAt f n l → c ∈ l ∨ ∃ c0 ∈ l, c = f c0
  | _, [], c, h => by simp [updateAt] at h
  | 0, x :: xs, c, h => by
    simp only [updateAt, List.mem_cons] at h
    rcases h with h | h
    · exact Or.inr ⟨x, List.mem_cons_self _ _, h⟩
    · exact Or.inl (List.mem_cons_of_mem _ h)
  | n + 1, x :: xs, c, h => by
    simp only [updateAt, List.mem_cons] at h
    rcases h with h | h
    · exact Or.inl (h ▸ List.mem_cons_self _ _)
    · rcases mem_updateAt f n xs c h with h1 | ⟨c0, hc0, h1⟩
      · exact Or.inl (List.mem_cons_of_mem _ h1)
      · exact Or.inr ⟨c0, List.mem_cons_of_mem _ hc0, h1⟩

theorem hasChats_of (s t : State) (h : hasChats s) (hm : t.messages = s.messages)
    (hc : ∀ c ∈ s.chats, ∃ c1 ∈ t.chats, c1.id = c.id) : hasChats t := by
  intro m hmem
  rw [hm] at hmem
  obtain ⟨c, hcm, hid⟩ := h m hmem
  obtain ⟨c1, hc1, hid1⟩ := hc c hcm
  exact ⟨c1, hc1, by rw [hid, hid1]⟩

theorem activeChat_of (s t : State) (h : activeChat s)
    (hcur : t.currentChatId = s.currentChatId)
    (hc : ∀ c ∈ s.chats, ∃ c1 ∈ t.chats, c1.id = c.id) : activeChat t := by
  obtain ⟨c, hcm, hid⟩ := h
  obtain ⟨c1, hc1, hid1⟩ := hc c hcm
  exact ⟨c1, hc1, by rw [hcur, hid, hid1]⟩

theorem good_frame (s t : State) (h : hasChats s ∧ activeChat s)
    (hm : t.messages = s.messages) (hc : t.chats = s.chats)
    (hcur : t.currentChatId = s.currentChatId) : hasChats t ∧ activeChat t :=
  ⟨hasChats_of s t h.1 hm (fun c hcm => ⟨c, hc ▸ hcm, rfl⟩),
   activeChat_of s t h.2 hcur (fun c hcm => ⟨c, hc ▸ hcm, rfl⟩)⟩

theorem inv_frame (s t : State) (h : Inv s)
    (hm : t.messages = s.messages) (hc : t.chats = s.chats)
    (hcur : t.currentChatId = s.currentChatId) (hconns : t.conns = s.conns) : Inv t := by
  refine ⟨hasChats_of s t h.1 hm (fun c hcm => ⟨c, hc ▸ hcm, rfl⟩), ?_⟩
  rcases h.2 with ha | hi
  · exact Or.inl (activeChat_of s t ha hcur (fun c hcm => ⟨c, hc ▸ hcm, rfl⟩))
  · exact Or.inr ⟨by rw [hcur]; exact hi.1, by rw [hconns]; exact hi.2⟩

/-- A new message under the active chat keeps the stores in step. -/
theorem good_add_message (s : State) (m : Message) (h : hasChats s ∧ activeChat s)
    (hm : m.chatId = s.currentChatId) :
    hasChats { s with messages := saveToDB Message.id s.messages m } ∧
    activeChat { s with messages := saveToDB Message.id s.messages m } := by
  refine ⟨?_, h.2⟩
  intro m1 hmem
  rcases mem_saveToDB Message.id hmem with h1 | h1
  · obtain ⟨c, hcm, hid⟩ := h.2
    exact ⟨c, hcm, by rw [h1, hm, hid]⟩
  · exact h.1 m1 h1

theorem good_sendSystemMessage (s : State) (env : Env) (content : JSString)
    (h : hasChats s ∧ activeChat s) :
    hasChats (sendSystemMessage s env content) ∧
    activeChat (sendSystemMessage s env content) :=
  good_add_message s _ h rfl

theorem good_refreshChat (s : State) (env : Env) (content : JSString)
    (h : hasChats s ∧ activeChat s) :
    hasChats (refreshChat s env content) ∧ activeChat (refreshChat s env content) := by
  unfold refreshChat
  split
  · exact h
  · split
    · exact h
    · rename_i chat _
      exact ⟨hasChats_of s _ h.1 rfl
               (fun c hcm => saveToDB_keeps_key Chat.id s.chats _ c hcm),
             activeChat_of s _ h.2 rfl
               (fun c hcm => saveToDB_keeps_key Chat.id s.chats _ c hcm)⟩

theorem good_handleIncomingMessage (s : State) (env : Env) (data : Payload)
    (h : hasChats s ∧ activeChat s) :
    hasChats (handleIncomingMessage s env data) ∧
    activeChat (handleIncomingMessage s env data) := by
  unfold handleIncomingMessage
  split
  · exact good_refreshChat _ env _ (good_add_message s _ h rfl)
  · exact h

theorem good_sendMessage (s : State) (env : Env) (content : JSString)
    (h : hasChats s ∧ activeChat s) :
    hasChats (sendMessage s env content) ∧ activeChat (sendMessage s env content) := by
  unfold sendMessage
  split
  · exact good_frame s _ h rfl rfl rfl
  · exact good_refreshChat _ env _
      (good_frame _ _ (good_add_message s _ h rfl) rfl rfl rfl)

theorem connectToPeer_messages (s : State) (p : JSString) :
    (connectToPeer s p).messages = s.messages := by
  unfold connectToPeer
  split
  · split <;> rfl
  · rfl

theorem good_connectToPeer (s : State) (p : JSString) (h : hasChats s ∧ activeChat s) :
    hasChats (connectToPeer s p) ∧ activeChat (connectToPeer s p) :=
  good_frame s _ h (connectToPeer_messages s p) (connectToPeer_chats s p)
    (connectToPeer_currentChatId s p)

theorem good_openChatResume (s : State) (chatId : JSString)
    (h : hasChats s ∧ activeChat s) :
    hasChats (openChatResume s chatId) ∧ activeChat (openChatResume s chatId) := by
  unfold openChatResume
  split
  · exact h
  · split
    · exact h
    · split
      · exact good_connectToPeer s _ h
      · exact h

theorem good_openChatBegin (s : State) (chatId : JSString) (h : hasChats s)
    (hc : ∃ c ∈ s.chats, c.id = chatId) :
    hasChats (openChatBegin s chatId) ∧ activeChat (openChatBegin s chatId) := by
  obtain ⟨c, hcm, hid⟩ := hc
  exact ⟨h, c, hcm, by simp [openChatBegin, hid]⟩

theorem good_openChat (s : State) (chatId : JSString) (h : hasChats s)
    (hc : ∃ c ∈ s.chats, c.id = chatId) :
    hasChats (openChat s chatId) ∧ activeChat (openChat s chatId) :=
  good_openChatResume _ chatId (good_openChatBegin s chatId h hc)

/-- After the chat for `chatId` is looked up and made when missing, it is stored. -/
theorem ensure_chat (s : State) (chatId : JSString) (chat : Chat) (hid : chat.id = chatId)
    (h : hasChats s) :
    hasChats (match getFromDB Chat.id s.chats chatId with
      | some _ => s
      | none => { s with chats := saveToDB Chat.id s.chats chat }) ∧
    ∃ c ∈ (match getFromDB Chat.id s.chats chatId with
      | some _ => s
      | none => { s with chats := saveToDB Chat.id s.chats chat }).chats, c.id = chatId := by
  cases hget : getFromDB Chat.id s.chats chatId with
  | some c =>
    exact ⟨h, c, getFromDB_mem Chat.id hget, getFromDB_key Chat.id hget⟩
  | none =>
    refine ⟨hasChats_of s _ h rfl
      (fun c hcm => saveToDB_keeps_key Chat.id s.chats chat c hcm), chat, ?_, hid⟩
    exact mem_saveToDB_self Chat.id s.chats chat

theorem inv_of_good (s : State) (h : hasChats s ∧ activeChat s) : Inv s :=
  ⟨h.1, Or.inl h.2⟩

/-- A connection that is outbound or open exists only once a chat is active. -/
theorem good_of_conn (s : State) (c : Conn) (hc : c ∈ s.conns)
    (h : c.inbound = false ∨ c.status = ConnStatus.opened) (hinv : Inv s) :
    hasChats s ∧ activeChat s := by
  refine ⟨hinv.1, ?_⟩
  rcases hinv.2 with ha | hi
  · exact ha
  · have := hi.2 c hc
    rcases h with h | h
    · simp [h] at this
    · exact absurd h this.2

theorem conn_of_connectionOpen (s : State) (h : connectionOpen s = true) :
    ∃ c ∈ s.conns, c.status = ConnStatus.opened := by
  unfold connectionOpen at h
  split at h
  · simp at h
  · split at h
    · simp at h
    · rename_i c hget
      exact ⟨c, List.getElem?_mem hget, by simpa using h⟩

theorem good_incomingOpenResume (toUpperCase : JSString → JSString) (s : State)
    (env : Env) (remote : JSString) (hs : hasChats s) :
    hasChats (incomingOpenResume toUpperCase s env remote) ∧
    activeChat (incomingOpenResume toUpperCase s env remote) := by
  unfold incomingOpenResume
  simp only []
  apply good_openChatResume
  apply good_sendSystemMessage
  have he := ensure_chat s (generateChatId s.peerId remote)
    (newPeerChat toUpperCase (generateChatId s.peerId remote) remote env) rfl hs
  exact good_openChatBegin _ _ he.1 he.2

theorem good_incomingOpen (toUpperCase : JSString → JSString) (s : State) (env : Env)
    (h : Nat) (remote : JSString) (hs : hasChats s) :
    hasChats (incomingOpen toUpperCase s env h remote) ∧
    activeChat (incomingOpen toUpperCase s env h remote) :=
  good_incomingOpenResume toUpperCase (incomingOpenBegin s h) env remote hs

theorem inv_connectToFriend (toUpperCase : JSString → JSString) (s : State) (env : Env)
    (input : JSString) (h : Inv s) : Inv (connectToFriend toUpperCase s env input) := by
  unfold connectToFriend
  simp only []
  split
  · exact inv_frame s _ h rfl rfl rfl rfl
  · split
    · exact inv_frame s _ h rfl rfl rfl rfl
    · apply inv_of_good
      apply good_openChatResume
      apply good_connectToPeer
      have he := ensure_chat s (generateChatId s.userId (trim input))
        (newPeerChat toUpperCase (generateChatId s.userId (trim input)) (trim input) env)
        rfl h.1
      exact good_openChatBegin _ _ he.1 he.2

theorem good_createNewChat (s : State) (env : Env) (h : hasChats s) :
    hasChats (createNewChat s env) ∧ activeChat (createNewChat s env) := by
  unfold createNewChat
  simp only []
  apply good_openChat
  · exact hasChats_of s _ h rfl (fun c hcm => saveToDB_keeps_key Chat.id s.chats _ c hcm)
  · exact ⟨_, mem_saveToDB_self Chat.id s.chats _, rfl⟩

theorem inv_launch (s : State) (rnd : JSString) (h : Inv s) : Inv (launch s rnd) := by
  have hm : (launch s rnd).messages = s.messages := by
    unfold launch loadUserData
    simp only []
    split <;> rfl
  have hc : (launch s rnd).chats = s.chats := by
    unfold launch loadUserData
    simp only []
    split <;> rfl
  have hcur : (launch s rnd).currentChatId = none := by
    unfold launch loadUserData
    simp only []
    split <;> rfl
  have hconns : (launch s rnd).conns = [] := by
    unfold launch loadUserData
    simp only []
    split <;> rfl
  refine ⟨hasChats_of s _ h.1 hm (fun c hcm => ⟨c, hc ▸ hcm, rfl⟩), Or.inr ⟨hcur, ?_⟩⟩
  rw [hconns]
  intro c hcm
  simp at hcm

/-- One event whose handler runs as a whole keeps the invariant. -/
theorem step_inv (toUpperCase : JSString → JSString) (s : State) (e : Event)
    (hw : e.whole = true) (h : Inv s) : Inv (step toUpperCase s e) := by
  cases e with
  | reload rnd => exact inv_launch s rnd h
  | peerOpen => exact inv_frame s _ h rfl rfl rfl rfl
  | connection remote =>
    refine ⟨h.1, ?_⟩
    rcases h.2 with ha | hi
    · exact Or.inl ha
    · refine Or.inr ⟨hi.1, ?_⟩
      intro c hc
      simp only [step, handleIncomingConnection, List.mem_append, List.mem_singleton] at hc
      rcases hc with hc | hc
      · exact hi.2 c hc
      · simp [hc]
  | incomingOpen hd env =>
    simp only [step]
    split
    · split
      · exact inv_of_good _ (good_incomingOpen toUpperCase _ env hd _ h.1)
      · exact h
    · exact h
  | incomingOpenBegin hd => simp [Event.whole] at hw
  | incomingOpenResume hd env => simp [Event.whole] at hw
  | outgoingOpen hd env =>
    simp only [step]
    split
    · rename_i c hget
      split
      · rename_i hcond
        have hg := good_of_conn s c (List.getElem?_mem hget)
          (Or.inl (by simpa using hcond.1)) h
        apply inv_of_good
        have h1 : hasChats (markOpen s hd) ∧ activeChat (markOpen s hd) :=
          good_frame s _ hg rfl rfl rfl
        have h2 := good_frame (markOpen s hd)
          { markOpen s hd with currentConnection := some hd } h1 rfl rfl rfl
        have h3 := good_sendSystemMessage _ env (lit "Вы подключились к " ++ c.peer) h2
        exact good_frame _ _ h3 rfl rfl rfl
      · exact h
    · exact h
  | data hd payload env =>
    simp only [step]
    split
    · rename_i c hget
      split
      · rename_i hcond
        have hg := good_of_conn s c (List.getElem?_mem hget) (Or.inr hcond.2) h
        exact inv_of_good _ (good_handleIncomingMessage s env payload hg)
      · exact h
    · exact h
  | close hd =>
    refine ⟨h.1, ?_⟩
    rcases h.2 with ha | hi
    · exact Or.inl ha
    · refine Or.inr ⟨hi.1, ?_⟩
      intro c hc
      simp only [step] at hc
      rcases mem_updateAt _ hd s.conns c hc with h1 | ⟨c0, hc0, h1⟩
      · exact hi.2 c h1
      · have := hi.2 c0 hc0
        simp [h1, this.1]
  | clickChat chatId =>
    simp only [step]
    split
    · rename_i c hget
      exact inv_of_good _ (good_openChat s chatId h.1
        ⟨c, getFromDB_mem Chat.id hget, getFromDB_key Chat.id hget⟩)
    · exact h
  | clickConnectToFriend input env => exact inv_connectToFriend toUpperCase s env input h
  | clickCreateNewChat env => exact inv_of_good _ (good_createNewChat s env h.1)
  | clickSend input env =>
    simp only [step, sendMessageHandler]
    split
    · rename_i hcond
      obtain ⟨c, hc, ho⟩ := conn_of_connectionOpen s hcond.2
      have hg := good_of_conn s c hc (Or.inr ho) h
      exact inv_of_good _ (good_sendMessage s env _ hg)
    · exact h
  | clickSaveUsername input =>
    simp only [step, saveUsername]
    split
    · exact inv_frame s _ h rfl rfl rfl rfl
    · exact h

/-- Once a chat is active, every event but a reload keeps the messages with their
chats, the two halves of the inbound `'open'` handler included. -/
theorem step_good (toUpperCase : JSString → JSString) (s : State) (e : Event)
    (hr : ∀ rnd, e ≠ Event.reload rnd) (h : hasChats s ∧ activeChat s) :
    hasChats (step toUpperCase s e) ∧ activeChat (step toUpperCase s e) := by
  cases e with
  | reload rnd => exact absurd rfl (hr rnd)
  | peerOpen => exact good_frame s _ h rfl rfl rfl
  | connection remote => exact good_frame s _ h rfl rfl rfl
  | incomingOpen hd env =>
    simp only [step]
    split
    · split
      · exact good_incomingOpen toUpperCase _ env hd _ h.1
      · exact h
    · exact h
  | incomingOpenBegin hd =>
    simp only [step]
    split
    · split
      · exact good_frame s _ h rfl rfl rfl
      · exact h
    · exact h
  | incomingOpenResume hd env =>
    simp only [step]
    split
    · split
      · exact good_incomingOpenResume toUpperCase _ env _ h.1
      · exact h
    · exact h
  | outgoingOpen hd env =>
    simp only [step]
    split
    · rename_i c hget
      split
      · have h1 : hasChats (markOpen s hd) ∧ activeChat (markOpen s hd) :=
          good_frame s _ h rfl rfl rfl
        have h2 := good_frame (markOpen s hd)
          { markOpen s hd with currentConnection := some hd } h1 rfl rfl rfl
        have h3 := good_sendSystemMessage _ env (lit "Вы подключились к " ++ c.peer) h2
        exact good_frame _ _ h3 rfl rfl rfl
      · exact h
    · exact h
  | data hd payload env =>
    simp only [step]
    split
    · split
      · exact good_handleIncomingMessage s env payload h
      · exact h
    · exact h
  | close hd => exact good_frame s _ h rfl rfl rfl
  | clickChat chatId =>
    simp only [step]
    split
    · rename_i c hget
      exact good_openChat s chatId h.1
        ⟨c, getFromDB_mem Chat.id hget, getFromDB_key Chat.id hget⟩
    · exact h
  | clickConnectToFriend input env =>
    have hi := inv_connectToFriend toUpperCase s env input (inv_of_good s h)
    refine ⟨hi.1, ?_⟩
    rcases hi.2 with ha | hidle
    · exact ha
    · exfalso
      obtain ⟨c, _, hcur⟩ := h.2
      have hnone := hidle.1
      unfold connectToFriend at hnone
      simp only [] at hnone
      split at hnone
      · simp [hcur] at hnone
      · split at hnone
        · simp [hcur] at hnone
        · rw [openChatResume_currentChatId, connectToPeer_currentChatId] at hnone
          simp [openChatBegin] at hnone
  | clickCreateNewChat env => exact good_createNewChat s env h.1
  | clickSend input env =>
    simp only [step, sendMessageHandler]
    split
    · exact good_sendMessage s env _ h
    · exact h
  | clickSaveUsername input =>
    simp only [step, saveUsername]
    split
    · exact good_frame s _ h rfl rfl rfl
    · exact h

theorem run_inv (toUpperCase : JSString → JSString) : ∀ (events : List Event) (s : State),
    (∀ e ∈ events, e.whole = true) → Inv s → Inv (run toUpperCase s events)
  | [], s, _, h => h
  | e :: rest, s, hw, h => by
    have h1 := step_inv toUpperCase s e (hw e (List.mem_cons_self _ _)) h
    exact run_inv toUpperCase rest (step toUpperCase s e)
      (fun e1 he1 => hw e1 (List.mem_cons_of_mem _ he1)) h1

theorem inv_init (rnd : JSString) : Inv (init rnd) := by
  refine ⟨?_, Or.inr ⟨rfl, ?_⟩⟩
  · intro m hm
    simp [init] at hm
  · intro c hc
    simp [init] at hc

theorem messagesHaveChats_of (s : State) (h : hasChats s) : messagesHaveChats s = true := by
  unfold messagesHaveChats
  rw [List.all_eq_true]
  intro m hm
  obtain ⟨c, hc, hid⟩ := h m hm
  rw [List.any_eq_true]
  exact ⟨c, hc, by simp [hid]⟩

/-! ## The claims -/

/-- C1: for all peer identifiers A and B, `generateChatId(A, B)` equals
`generateChatId(B, A)`. -/
theorem generateChatId_symmetric (A B : JSString) :
    generateChatId A B = generateChatId B A :=
  generateChatId_comm A B

/-- C2: `generateChatId(A, B)` is the join of the two identifiers in string order, the
smaller one first, then `_`, then the other; for `alice` and `bob` it is `alice_bob`
in both argument orders; and the side that starts a connection through
`connectToFriend` and the side that accepts it in `handleIncomingConnection`, each
passing its own identifier first, end up with the same chat id. -/
theorem chatId_is_alphabetical_join :
    (∀ A B : JSString, generateChatId A B = alphabeticalJoin A B) ∧
    generateChatId (lit "alice") (lit "bob") = lit "alice_bob" ∧
    generateChatId (lit "bob") (lit "alice") = lit "alice_bob" ∧
    ∀ (toUpperCase : JSString → JSString) (sA sB : State) (envA envB : Env)
      (input : JSString) (h : Nat),
      sA.userId = sA.peerId → trim input = sB.peerId → sB.peerId ≠ [] →
      sB.peerId ≠ sA.userId →
      (connectToFriend toUpperCase sA envA input).currentChatId
          = some (generateChatId sA.userId sB.peerId) ∧
      (incomingOpen toUpperCase sB envB h sA.peerId).currentChatId
          = some (generateChatId sB.peerId sA.userId) ∧
      (connectToFriend toUpperCase sA envA input).currentChatId
          = (incomingOpen toUpperCase sB envB h sA.peerId).currentChatId := by
  refine ⟨generateChatId_eq, by decide, by decide, ?_⟩
  intro up sA sB envA envB input h hid htrim hne hneq
  have h1 : (connectToFriend up sA envA input).currentChatId
      = some (generateChatId sA.userId sB.peerId) := by
    unfold connectToFriend
    simp only [htrim, hne, hneq, if_false]
    rw [openChatResume_currentChatId, connectToPeer_currentChatId]
    rfl
  have h2 : (incomingOpen up sB envB h sA.peerId).currentChatId
      = some (generateChatId sB.peerId sA.userId) := by
    unfold incomingOpen incomingOpenResume
    simp only []
    rw [openChatResume_currentChatId, hid]
    rfl
  refine ⟨h1, h2, ?_⟩
  rw [h1, h2, generateChatId_comm]

/-- Witness of C2: `user_a1` connects to `user_b2` on first launch. -/
theorem chatId_is_alphabetical_join_witness :
    (connectToFriend asciiUpper (init (lit "a1")) ⟨1, 2, 3, lit "r"⟩ (lit " user_b2 ")).currentChatId
      = (incomingOpen asciiUpper (init (lit "b2")) ⟨4, 5, 6, lit "q"⟩ 0
          (init (lit "a1")).peerId).currentChatId :=
  (chatId_is_alphabetical_join.2.2.2 asciiUpper (init (lit "a1")) (init (lit "b2"))
    ⟨1, 2, 3, lit "r"⟩ ⟨4, 5, 6, lit "q"⟩ (lit " user_b2 ") 0
    (by decide) (by decide) (by decide) (by decide)).2.2

/-- C3: with no open connection (`currentConnection` null, or its `open` flag false)
`sendMessage(content)` only raises the notice: no record is made, the `messages` and
`chats` stores are as before and nothing is transmitted; `sendMessageHandler` does
not get as far as a send either. -/
theorem sendMessage_without_connection (s : State) (env : Env) (content : JSString)
    (hc : s.currentConnection = none ∨
      ∃ h c, s.currentConnection = some h ∧ s.conns[h]? = some c ∧
        c.status ≠ ConnStatus.opened) :
    sendMessage s env content
        = { s with alerts := s.alerts ++ [lit "Нет активного соединения!"] } ∧
    (sendMessage s env content).messages = s.messages ∧
    (sendMessage s env content).chats = s.chats ∧
    (sendMessage s env content).sent = s.sent ∧
    ∀ input : JSString, sendMessageHandler s env input = s := by
  have hopen := connectionOpen_false_of s hc
  have hs : sendMessage s env content
      = { s with alerts := s.alerts ++ [lit "Нет активного соединения!"] } := by
    simp [sendMessage, hopen]
  refine ⟨hs, by rw [hs], by rw [hs], by rw [hs], ?_⟩
  intro input
  simp [sendMessageHandler, hopen]

/-- Witness of C3: a send on first launch, before any connection. -/
theorem sendMessage_without_connection_witness :
    sendMessage (init (lit "a1")) ⟨1, 2, 3, lit "r"⟩ (lit "hi")
        = { init (lit "a1") with alerts := [lit "Нет активного соединения!"] } ∧
    (sendMessage (init (lit "a1")) ⟨1, 2, 3, lit "r"⟩ (lit "hi")).messages = [] :=
  have h := sendMessage_without_connection (init (lit "a1")) ⟨1, 2, 3, lit "r"⟩ (lit "hi")
    (Or.inl rfl)
  ⟨h.1, h.2.1⟩

/-- C4: after `sendMessage(content)` with an open connection the `messages` store
holds a record with that content, the current username as sender, `isSystem` false
and the active chat id as `chatId`. -/
theorem sendMessage_stores_record (s : State) (env : Env) (content : JSString)
    (hopen : connectionOpen s = true) :
    ∃ m ∈ (sendMessage s env content).messages,
      m.content = content ∧ m.sender = s.username ∧ m.isSystem = false ∧
      m.chatId = s.currentChatId := by
  refine ⟨{ id := generateMessageId env.tId env.rnd, chatId := s.currentChatId,
            content := content, sender := s.username, timestamp := env.tStamp,
            isSystem := false }, ?_, rfl, rfl, rfl, rfl⟩
  simp only [sendMessage, hopen, Bool.not_true, Bool.false_eq_true, if_false]
  rw [refreshChat_messages]
  exact mem_saveToDB_self Message.id _ _

/-- Witness of C4: a send in `sampleSession`. -/
theorem sendMessage_stores_record_witness :
    ∃ m ∈ (sendMessage sampleSession ⟨7, 8, 9, lit "p"⟩ (lit "hi")).messages,
      m.content = lit "hi" ∧ m.sender = sampleSession.username ∧ m.isSystem = false ∧
      m.chatId = sampleSession.currentChatId :=
  sendMessage_stores_record sampleSession ⟨7, 8, 9, lit "p"⟩ (lit "hi") (by decide)

/-- C5, as stated, fails: when the generated id is already a key of `messages`, the
`put` overwrites that record; the store does not grow and the earlier record is gone. -/
theorem handleIncomingMessage_overwrites :
    (handleIncomingMessage collidingSession ⟨5, 6, 7, lit "abc"⟩
        ⟨lit "message", lit "new", lit "carol", 0⟩).messages.length
      = collidingSession.messages.length ∧
    ¬ ∀ m ∈ collidingSession.messages,
        m ∈ (handleIncomingMessage collidingSession ⟨5, 6, 7, lit "abc"⟩
              ⟨lit "message", lit "new", lit "carol", 0⟩).messages := by
  decide

/-- C5, amended: for a payload of type `message` handled while the active chat id is
`C`, and a `messages` store in which no record has the generated id,
`handleIncomingMessage` adds exactly one record behind the earlier ones, which stay as
they are; it has `chatId` `C`, the payload's content and sender, and `isSystem` false. -/
theorem handleIncomingMessage_adds_one (s : State) (env : Env) (data : Payload)
    (C : JSString) (htype : data.type = lit "message") (hC : s.currentChatId = some C)
    (hfresh : ∀ m ∈ s.messages, m.id ≠ generateMessageId env.tId env.rnd) :
    (handleIncomingMessage s env data).messages
        = s.messages ++ [incomingRecord s env data] ∧
    (handleIncomingMessage s env data).messages.length = s.messages.length + 1 ∧
    (∀ m ∈ s.messages, m ∈ (handleIncomingMessage s env data).messages) ∧
    (incomingRecord s env data).chatId = some C ∧
    (incomingRecord s env data).content = data.content ∧
    (incomingRecord s env data).sender = data.sender ∧
    (incomingRecord s env data).isSystem = false := by
  have hm : (handleIncomingMessage s env data).messages
      = s.messages ++ [incomingRecord s env data] := by
    simp only [handleIncomingMessage, htype, if_true]
    rw [refreshChat_messages]
    exact saveToDB_fresh Message.id s.messages (incomingRecord s env data) hfresh
  refine ⟨hm, by rw [hm]; simp, ?_, hC, rfl, rfl, rfl⟩
  intro m hmem
  rw [hm]
  exact List.mem_append_left _ hmem

/-- Witness of C5: a first payload in `sampleSession`. -/
theorem handleIncomingMessage_adds_one_witness :
    (handleIncomingMessage sampleSession ⟨7, 8, 9, lit "p"⟩
        ⟨lit "message", lit "hi", lit "bob", 0⟩).messages.length
      = sampleSession.messages.length + 1 :=
  (handleIncomingMessage_adds_one sampleSession ⟨7, 8, 9, lit "p"⟩
    ⟨lit "message", lit "hi", lit "bob", 0⟩ (lit "user_a1_user_b2") (by decide) (by decide)
    (by decide)).2.1

/-- The chat summary after one payload of type `message`. -/
theorem handleIncomingMessage_chat (s : State) (env : Env) (data : Payload)
    (C : JSString) (chat : Chat) (htype : data.type = lit "message")
    (hC : s.currentChatId = some C) (hchat : getFromDB Chat.id s.chats C = some chat) :
    (handleIncomingMessage s env data).currentChatId = some C ∧
    getFromDB Chat.id (handleIncomingMessage s env data).chats C
      = some { chat with lastActivity := env.tAct
                         lastMessage := some (substring0 data.content 30) } := by
  have hid : chat.id = C := getFromDB_key Chat.id hchat
  simp only [handleIncomingMessage, htype, if_true, refreshChat, hC, hchat]
  refine ⟨trivial, ?_⟩
  have := getFromDB_saveToDB_self Chat.id s.chats
    { chat with lastActivity := env.tAct, lastMessage := some (substring0 data.content 30) }
  simpa [hid] using this

/-- C6: for an existing chat `C` that is the active one, after two payloads of type
`message` handled one after the other the chat's `lastMessage` is the first 30 code
units of the second content (all of it when shorter), and `id`, `peerId`, `title`,
`avatar` and `unread` are as before. -/
theorem lastMessage_is_second (s : State) (env1 env2 : Env) (d1 d2 : Payload)
    (C : JSString) (chat : Chat)
    (h1 : d1.type = lit "message") (h2 : d2.type = lit "message")
    (hC : s.currentChatId = some C) (hchat : getFromDB Chat.id s.chats C = some chat) :
    ∃ chat2, getFromDB Chat.id
        (handleIncomingMessage (handleIncomingMessage s env1 d1) env2 d2).chats C
        = some chat2 ∧
      chat2.lastMessage = some (d2.content.take 30) ∧
      (d2.content.length ≤ 30 → chat2.lastMessage = some d2.content) ∧
      chat2.id = chat.id ∧ chat2.peerId = chat.peerId ∧ chat2.title = chat.title ∧
      chat2.avatar = chat.avatar ∧ chat2.unread = chat.unread := by
  obtain ⟨hC1, hchat1⟩ := handleIncomingMessage_chat s env1 d1 C chat h1 hC hchat
  obtain ⟨_, hchat2⟩ := handleIncomingMessage_chat _ env2 d2 C _ h2 hC1 hchat1
  refine ⟨_, hchat2, rfl, ?_, rfl, rfl, rfl, rfl, rfl⟩
  intro hlen
  simp [substring0, List.take_of_length_le hlen]

/-- Witness of C6: two payloads in `sampleSession`. -/
theorem lastMessage_is_second_witness :
    ∃ chat2, getFromDB Chat.id
        (handleIncomingMessage
          (handleIncomingMessage sampleSession ⟨7, 8, 9, lit "p"⟩
            ⟨lit "message", lit "first", lit "bob", 0⟩)
          ⟨10, 11, 12, lit "o"⟩ ⟨lit "message", lit "second", lit "bob", 0⟩).chats
        (lit "user_a1_user_b2") = some chat2 ∧
      chat2.lastMessage = some (lit "second") := by
  obtain ⟨chat2, hget, _, hshort, _⟩ :=
    lastMessage_is_second sampleSession ⟨7, 8, 9, lit "p"⟩ ⟨10, 11, 12, lit "o"⟩
      ⟨lit "message", lit "first", lit "bob", 0⟩ ⟨lit "message", lit "second", lit "bob", 0⟩
      (lit "user_a1_user_b2")
      (newPeerChat asciiUpper (lit "user_a1_user_b2") (lit "user_b2") ⟨1, 2, 3, lit "r"⟩)
      (by decide) (by decide) (by decide) (by decide)
  exact ⟨chat2, hget, hshort (by decide)⟩

/-- C7: when the store holds a chat with id `C`, `openChat(C)` leaves the `chats` store
as it is, and so does `connectToFriend` for a friend id whose derived chat id is `C`:
no record is added and the one for `C` is not written. -/
theorem reopen_keeps_chats (toUpperCase : JSString → JSString) (s : State) (env : Env)
    (C input : JSString) (chat : Chat) (hchat : getFromDB Chat.id s.chats C = some chat) :
    (openChat s C).chats = s.chats ∧
    (generateChatId s.userId (trim input) = C →
      (connectToFriend toUpperCase s env input).chats = s.chats) := by
  refine ⟨openChat_chats s C, ?_⟩
  intro hid
  unfold connectToFriend
  simp only []
  split
  · rfl
  · split
    · rfl
    · rw [openChatResume_chats, connectToPeer_chats, hid, hchat]
      rfl

/-- Witness of C7: the chat of `sampleSession` is opened and connected to again. -/
theorem reopen_keeps_chats_witness :
    (openChat sampleSession (lit "user_a1_user_b2")).chats = sampleSession.chats ∧
    (connectToFriend asciiUpper sampleSession ⟨7, 8, 9, lit "p"⟩ (lit "user_b2")).chats
      = sampleSession.chats :=
  have h := reopen_keeps_chats asciiUpper sampleSession ⟨7, 8, 9, lit "p"⟩
    (lit "user_a1_user_b2") (lit "user_b2")
    (newPeerChat asciiUpper (lit "user_a1_user_b2") (lit "user_b2") ⟨1, 2, 3, lit "r"⟩)
    (by decide)
  ⟨h.1, h.2 (by decide)⟩

/-- C10: for identifiers of the form `user_` followed by a string without `_` (code
unit 95), equal chat ids come from the same unordered pair of identifiers. -/
theorem generated_chatId_injective (a b c d : JSString)
    (ha : 95 ∉ a) (hb : 95 ∉ b) (hc : 95 ∉ c) (hd : 95 ∉ d)
    (h : generateChatId (generateUserId a) (generateUserId b)
        = generateChatId (generateUserId c) (generateUserId d)) :
    (generateUserId a = generateUserId c ∧ generateUserId b = generateUserId d) ∨
    (generateUserId a = generateUserId d ∧ generateUserId b = generateUserId c) := by
  rw [generateChatId_eq, generateChatId_eq] at h
  unfold alphabeticalJoin at h
  split at h <;> split at h
  · have := join_generated_inj b a d c hb hd h
    exact Or.inl ⟨this.2, this.1⟩
  · have := join_generated_inj b a c d hb hc h
    exact Or.inr ⟨this.2, this.1⟩
  · have := join_generated_inj a b d c ha hd h
    exact Or.inr ⟨this.1, this.2⟩
  · have := join_generated_inj a b c d ha hc h
    exact Or.inl ⟨this.1, this.2⟩

/-- Witness of C10: the pair `user_k3`, `user_z9` in both orders. -/
theorem generated_chatId_injective_witness :
    (generateUserId (lit "k3") = generateUserId (lit "z9") ∧
      generateUserId (lit "z9") = generateUserId (lit "k3")) ∨
    (generateUserId (lit "k3") = generateUserId (lit "k3") ∧
      generateUserId (lit "z9") = generateUserId (lit "z9")) :=
  generated_chatId_injective (lit "k3") (lit "z9") (lit "z9") (lit "k3")
    (by decide) (by decide) (by decide) (by decide) (by decide)

/-- C8 fails on the code: with the connection to `user_b2` open and current, the
`'open'` handler of an inbound connection from `user_c3` makes that one current and
leaves the first open, so two connections are open; and the two connections one
`connectToFriend` makes (one directly, one through `openChat`) are both open once
both have opened. -/
theorem two_connections_open :
    (openConnections sampleSession).length = 1 ∧
    sampleSession.currentConnection = some 0 ∧
    (openConnections (run asciiUpper sampleSession inboundTakesOver)).length = 2 ∧
    (run asciiUpper sampleSession inboundTakesOver).currentConnection = some 2 ∧
    (openConnections (run asciiUpper (init (lit "a1")) connectedTwice)).length = 2 ∧
    (run asciiUpper (init (lit "a1")) connectedTwice).currentConnection = some 1 := by
  decide

/-- C9 fails on the code: on first launch, a payload that arrives on an inbound
connection while its `'open'` handler waits for the store (the `'data'` listener is
attached at line 162, before any chat is active) is saved with the `chatId` `null`,
and no chat is stored at all. The outbound path attaches its `'data'` listener only
inside `'open'`, once a chat is active. -/
theorem message_without_chat :
    messagesHaveChats (run asciiUpper (init (lit "a1")) payloadDuringOpen) = false ∧
    (run asciiUpper (init (lit "a1")) payloadDuringOpen).messages.map Message.chatId = [none] ∧
    (run asciiUpper (init (lit "a1")) payloadDuringOpen).chats = [] := by
  decide

/-- In every state reached from an empty store by events whose handlers each run as
a whole, every record of `messages` has a `chatId` that is the id of a record of
`chats`. -/
theorem messages_have_chats (toUpperCase : JSString → JSString) (rnd : JSString)
    (events : List Event) (hw : ∀ e ∈ events, e.whole = true) :
    messagesHaveChats (run toUpperCase (init rnd) events) = true ∧
    ∀ m ∈ (run toUpperCase (init rnd) events).messages,
      ∃ c ∈ (run toUpperCase (init rnd) events).chats, m.chatId = some c.id := by
  have h := run_inv toUpperCase events (init rnd) hw (inv_init rnd)
  exact ⟨messagesHaveChats_of _ h.1, h.1⟩

/-- The stores after `conversation`. -/
theorem messages_have_chats_witness :
    messagesHaveChats (run asciiUpper (init (lit "a1")) conversation) = true ∧
    (run asciiUpper (init (lit "a1")) conversation).messages.length = 4 :=
  ⟨(messages_have_chats asciiUpper (lit "a1") conversation (by decide)).1, by decide⟩

end Messenger
